import Mathlib

/-!  Verification development for the thermal impedance toolkit.

The repository sources are the React frontend (useCsvParser.js together with
FileUpload.jsx, useApi.js, DataContext.jsx, Sidebar.jsx, FitFosterTab.jsx,
FosterToCauerTab.jsx, PredictSiblingTab.jsx, ResultChart.jsx, App.jsx).
The Flask backend that implements the numerical core (fit, convert, predict)
is referenced by the README but is not among the sources; where a claim
depends on it, the corresponding definition is modelled from the spec and
its doc comment says so explicitly.  -/

/-- JavaScript values as they appear in parsed CSV cells (PapaParse with
dynamicTyping) and in UI input state, abstracted by their truthiness and
numeric-coercion behaviour: `undef` is `undefined`, `nullV` is `null`,
`num q` a finite number, `nan` the number NaN, `emptyStr` the empty string,
`strNum q` a non-empty string that parses fully as the number q,
`strJunk q` a non-empty string with numeric prefix q and trailing junk,
`strBad` a non-empty string with no numeric prefix, `boolV b` a boolean. -/
inductive JsVal where
  | undef
  | nullV
  | num (q : ℚ)
  | nan
  | emptyStr
  | strNum (q : ℚ)
  | strJunk (q : ℚ)
  | strBad
  | boolV (b : Bool)
deriving DecidableEq

/-- JavaScript truthiness: undefined, null, NaN, 0 and the empty string are
falsy; every non-empty string (including a string spelling 0) is truthy. -/
def truthy : JsVal → Bool
  | .undef => false
  | .nullV => false
  | .num q => decide (q ≠ 0)
  | .nan => false
  | .emptyStr => false
  | .strNum _ => true
  | .strJunk _ => true
  | .strBad => true
  | .boolV b => b

/-- JavaScript Number() coercion; `none` stands for NaN.  Number(null) and
Number('') are 0; a string coerces only when it parses in full. -/
def toNumber : JsVal → Option ℚ
  | .undef => none
  | .nullV => some 0
  | .num q => some q
  | .nan => none
  | .emptyStr => some 0
  | .strNum q => some q
  | .strJunk _ => none
  | .strBad => none
  | .boolV b => some (if b then 1 else 0)

/-- JavaScript parseFloat; `none` stands for NaN.  Unlike Number(), a
numeric prefix is enough, and null, booleans and '' give NaN. -/
def parseFloatJs : JsVal → Option ℚ
  | .num q => some q
  | .strNum q => some q
  | .strJunk q => some q
  | _ => none

/-- JavaScript `a || b`: a when a is truthy, otherwise b. -/
def jsOr (a b : JsVal) : JsVal :=
  if truthy a then a else b

/-- One parsed CSV row as PapaParse hands it to the `complete` callback with
`header: true`: each recognized column name is a field, absent columns are
`undefined`.  Embeds the column set probed by useCsvParser.js. -/
structure Row where
  tp : JsVal := .undef
  t : JsVal := .undef
  time : JsVal := .undef
  Time : JsVal := .undef
  TP : JsVal := .undef
  T : JsVal := .undef
  Zth : JsVal := .undef
  Z : JsVal := .undef
  ZTH : JsVal := .undef
  z : JsVal := .undef
deriving DecidableEq

/-- The time cell chosen by `row.tp || row.t || row.time || row.Time ||
row.TP || row.T` in useCsvParser.js. -/
def timeCell (r : Row) : JsVal :=
  jsOr r.tp (jsOr r.t (jsOr r.time (jsOr r.Time (jsOr r.TP r.T))))

/-- The impedance cell chosen by `row.Zth || row.Z || row.ZTH || row.z`
in useCsvParser.js. -/
def zCell (r : Row) : JsVal :=
  jsOr r.Zth (jsOr r.Z (jsOr r.ZTH r.z))

/-- A delivered measurement point `{tp, Zth}` with numeric fields. -/
structure Point where
  tp : ℚ
  Zth : ℚ
deriving DecidableEq

/-- Comparator used for sorting points ascending by time, embedding
`points.sort((a, b) => a.tp - b.tp)`. -/
def ptLE (a b : Point) : Prop := a.tp ≤ b.tp

instance : DecidableRel ptLE := fun a b => inferInstanceAs (Decidable (a.tp ≤ b.tp))

instance : IsTotal Point ptLE := ⟨fun a b => le_total a.tp b.tp⟩

instance : IsTrans Point ptLE := ⟨fun _ _ _ h1 h2 => le_trans h1 h2⟩

/-- Strict version of the time order, used to state dataset validity. -/
def ptLT (a b : Point) : Prop := a.tp < b.tp

instance : DecidableRel ptLT := fun a b => inferInstanceAs (Decidable (a.tp < b.tp))

/-- A point right after the `map` step of parseCsv, before the NaN filter:
each field is a Number() result and may still be NaN (`none`). -/
structure RawPoint where
  tpN : Option ℚ
  ZthN : Option ℚ
deriving DecidableEq

/-- The filter step of parseCsv:
`!isNaN(p.tp) && !isNaN(p.Zth) && p.tp > 0`, fused with the delivery of the
surviving point (isNaN on a Number() result is exactly `none` here). -/
def toPoint (p : RawPoint) : Option Point :=
  match p.tpN, p.ZthN with
  | some a, some b => if 0 < a then some ⟨a, b⟩ else none
  | _, _ => none

/-- Error thrown by parseCsv when a column lookup yields undefined. -/
def csvColumnsMsg : String :=
  "CSV must contain columns named \"tp\" (or \"t\") and \"Zth\" (or \"Z\")"

/-- Error thrown by parseCsv when no row survives the filter. -/
def noValidPointsMsg : String := "No valid data points found in CSV"

/-- The `map` step of parseCsv over all rows: pick the time and impedance
cells; if either is undefined the whole parse rejects with
`csvColumnsMsg`, otherwise coerce both with Number(). -/
def rowsToRaw : List Row → Except String (List RawPoint)
  | [] => .ok []
  | r :: rs =>
    if timeCell r = .undef ∨ zCell r = .undef then .error csvColumnsMsg
    else
      match rowsToRaw rs with
      | .error e => .error e
      | .ok rest => .ok (⟨toNumber (timeCell r), toNumber (zCell r)⟩ :: rest)

/-- Embedding of parseCsv from useCsvParser.js: map rows to raw points
(rejecting on a missing column), filter out NaN fields and non-positive
times, reject when nothing survives, and sort ascending by time.  The
stable JavaScript Array sort with comparator `a.tp - b.tp` is embedded as
the stable insertion sort on `ptLE`. -/
def parseRows (rows : List Row) : Except String (List Point) :=
  match rowsToRaw rows with
  | .error e => .error e
  | .ok raw =>
    if (raw.filterMap toPoint).isEmpty then .error noValidPointsMsg
    else .ok (List.insertionSort ptLE (raw.filterMap toPoint))

/-- One Foster stage (R, C) with derived time constant R*C. -/
structure FosterStage where
  R : ℚ
  C : ℚ
deriving DecidableEq

/-- Result shape of the fit operation as the UI consumes it: the stage
list (the R, C and tau arrays of the HTTP response, zipped), the fitted
series resampled at the dataset times, and the optional warning.  The
diagnostic percentages of the response involve a real square root and are
not used by any claim, so they are not modelled. -/
structure FitResult where
  stages : List FosterStage
  fitSeries : List Point
  warning : Option String
deriving DecidableEq

/-- Small positive clipping floor of the spec (post-fit clip). -/
def epsClip : ℚ := 1 / 1000000

/-- Modelled from the spec: post-fit clip of the missing backend fitter.
Any R less or equal 0 is clipped to `epsClip`; with R already positive,
tau less or equal 0 is exactly C less or equal 0, so C is clipped the same
way. -/
def clipStage (s : FosterStage) : FosterStage :=
  ⟨if s.R ≤ 0 then epsClip else s.R, if s.C ≤ 0 then epsClip else s.C⟩

/-- Modelled from the spec: initial guess of the missing backend fitter.
N time constants are placed geometrically starting at min(t)/2 (the exact
log10-even spacing of the spec uses irrational roots, so the rational
model fixes the geometric ratio at 2; no claim proved below depends on
the spacing constant), and every R starts at the asymptotic Zth divided
by N (C is tau over R; a zero asymptote makes C zero here, which the
post-fit clip repairs). -/
def initialGuess (pts : List Point) (n : ℕ) : List FosterStage :=
  let tmin := ((pts.head?).map Point.tp).getD 1
  let zlast := ((pts.getLast?).map Point.Zth).getD 0
  let r0 := zlast / (n : ℚ)
  (List.range n).map (fun i => ⟨r0, (tmin / 2 * 2 ^ i) / r0⟩)

/-- Modelled from the spec: the ResponseSimulator value
sum of R * (1 - exp (-t / tau)) at one time.  Within the rational
embedding the saturating exponential 1 - exp (-t / tau) is represented by
the monotone rational surrogate t / (t + tau), which has the same
endpoints and asymptote; no claim proved below depends on the pointwise
response values. -/
def fosterStep (stages : List FosterStage) (t : ℚ) : ℚ :=
  (stages.map (fun s => s.R * (t / (t + s.R * s.C)))).sum

/-- Modelled from the spec: backend validation of the requested order.
The request carries N as a JavaScript number; it is accepted when it is a
(non-NaN) integer between 1 and 10. -/
def validOrder (nVal : Option ℚ) : Option ℕ :=
  match nVal with
  | none => none
  | some q => if 1 ≤ q ∧ q ≤ 10 ∧ q.den = 1 then some q.num.toNat else none

/-- Modelled from the spec: the backend ExponentialSumFitter is not among
the sources.  Validation (dataset length at least 3, order an integer in
[1,10], violation giving a ValidationError) follows the spec exactly.
The iterative least-squares refinement is outside the rational model; the
spec fixes that it refines the N-stage parameter vector in place
(preserving the stage count) and may stop at any iterate, so the model
returns the initial guess as the last iterate and applies the specified
post-fit clip, with the clipping warning of the spec. -/
def fitCore (pts : List Point) (nVal : Option ℚ) : Except String FitResult :=
  if pts.length < 3 then .error "ValidationError: dataset too short"
  else
    match validOrder nVal with
    | none => .error "ValidationError: N out of [1,10]"
    | some n =>
      let raw := initialGuess pts n
      let stages := raw.map clipStage
      .ok
        { stages := stages
          fitSeries := pts.map (fun p => ⟨p.tp, fosterStep stages p.tp⟩)
          warning :=
            if raw.any (fun s => decide (s.R ≤ 0) || decide (s.C ≤ 0)) then
              some "non-physical parameters clipped"
            else none }

/-- Result shape of the predict operation. -/
structure PredictResult where
  series : List Point
  scale : ℚ
  summary : String
deriving DecidableEq

/-- Modelled from the spec: the backend SiblingPredictor is not among the
sources.  Validation (Aref and Anew positive, NaN or non-positive giving
a ValidationError) follows the spec.  The frontend sends no scalingSpec,
so the model applies the base area-scaling law with gamma 1 (pure inverse
area): R scales by Aref/Anew, C inversely, tau invariant; the returned
scale is the ratio of steady-state resistances, which is Aref/Anew.  When
the internal fit is impossible the spec fallback scales the raw values. -/
def predictCore (pts : List Point) (Aref Anew : Option ℚ) :
    Except String PredictResult :=
  match Aref, Anew with
  | some a, some b =>
    if a ≤ 0 ∨ b ≤ 0 then .error "ValidationError: non-positive area"
    else
      match fitCore pts (some 4) with
      | .ok r =>
        let ratio := a / b
        let stages := r.stages.map (fun st => (⟨st.R * ratio, st.C / ratio⟩ : FosterStage))
        .ok
          { series := pts.map (fun p => ⟨p.tp, fosterStep stages p.tp⟩)
            scale := ratio
            summary := "scaled by area ratio" }
      | .error _ =>
        .ok
          { series := pts.map (fun p => ⟨p.tp, p.Zth * (a / b)⟩)
            scale := a / b
            summary := "used fallback pure-inverse-area scaling" }
  | _, _ => .error "ValidationError: malformed area"

/-- Polynomials over the rationals, little-endian coefficient lists, used
for the continued-fraction Cauer synthesis. -/
abbrev QPoly := List ℚ

/-- Drop trailing zero coefficients. -/
def ptrim (p : QPoly) : QPoly := (p.reverse.dropWhile (· == 0)).reverse

/-- Leading coefficient (0 for the zero polynomial). -/
def plead (p : QPoly) : ℚ := ((ptrim p).getLast?).getD 0

/-- Scale a polynomial by a constant. -/
def pscale (c : ℚ) (p : QPoly) : QPoly := p.map (c * ·)

/-- Add two polynomials. -/
def padd : QPoly → QPoly → QPoly
  | [], q => q
  | p, [] => p
  | a :: p, b :: q => (a + b) :: padd p q

/-- Subtract two polynomials. -/
def psub (p q : QPoly) : QPoly := padd p (pscale (-1) q)

/-- Multiply a polynomial by the Laplace variable s. -/
def pshift (p : QPoly) : QPoly := 0 :: p

/-- Multiply two polynomials. -/
def pmul : QPoly → QPoly → QPoly
  | [], _ => []
  | a :: p, q => padd (pscale a q) (pshift (pmul p q))

/-- Driving-point impedance of a Foster network as a rational function:
Z(s) = sum of R_i / (1 + s tau_i) over the common denominator, returned
as (numerator, denominator). -/
def fosterZ (R C : List ℚ) : QPoly × QPoly :=
  (R.zip C).foldl
    (fun acc rc =>
      let lin : QPoly := [1, rc.1 * rc.2]
      (padd (pmul acc.1 lin) (pscale rc.1 acc.2), pmul acc.2 lin))
    ([0], [1])

/-- Modelled from the spec: one ladder stage per step of the
continued-fraction expansion about s at infinity, peeling a series
resistance and a shunt capacitance by polynomial division (the spec
leaves the expansion point open; division by a vanished leading
coefficient yields 0 in the total rational division and is repaired by
the clip in `cauerCore`). -/
def cfSteps : ℕ → QPoly → QPoly → List (ℚ × ℚ)
  | 0, _, _ => []
  | Nat.succ k, p, q =>
    let c := plead q / plead p
    let q2 := ptrim (psub q (pscale c (pshift p)))
    let r := plead p / plead q2
    let p2 := ptrim (psub p (pscale r q2))
    (r, c) :: cfSteps k p2 q2

/-- Result shape of the Foster-to-Cauer conversion. -/
structure CauerResult where
  R_cauer : List ℚ
  C_cauer : List ℚ
  series : List Point
  warning : Option String
deriving DecidableEq

/-- Modelled from the spec: the backend FosterToCauerConverter is not
among the sources.  ValidationError exactly when N is below 1 or the
input stages violate the FosterNetwork invariants; extracted values that
are non-positive are clipped to the small positive floor with the
numerical warning of the spec, never an error.  The response series slot
is carried through from the request (simulating the ladder response is
outside the claims proved below). -/
def cauerCore (R C : List ℚ) (series : List Point) :
    Except String CauerResult :=
  if R.length = 0 then .error "ValidationError: N < 1"
  else if R.length ≠ C.length then .error "ValidationError: malformed shape"
  else if R.all (fun r => decide (0 < r)) && C.all (fun c => decide (0 < c)) then
    let pq := fosterZ R C
    let raw := cfSteps R.length pq.1 pq.2
    let anyBad := raw.any (fun rc => decide (rc.1 ≤ 0) || decide (rc.2 ≤ 0))
    let clipped := raw.map
      (fun rc =>
        (if rc.1 ≤ 0 then epsClip else rc.1, if rc.2 ≤ 0 then epsClip else rc.2))
    .ok
      { R_cauer := clipped.map Prod.fst
        C_cauer := clipped.map Prod.snd
        series := series
        warning :=
          if anyBad then
            some "numerically unstable conversion - near-degenerate time constants"
          else none }
  else .error "ValidationError: invalid Foster stages"

/-- Body of the fit_foster request built by useApi.js:
`{points, N: Number(N)}`. -/
structure FitRequest where
  points : List Point
  N : Option ℚ
deriving DecidableEq

/-- Embedding of the fitFoster request construction in useApi.js. -/
def buildFitRequest (points : List Point) (nRaw : JsVal) : FitRequest :=
  ⟨points, toNumber nRaw⟩

/-- Body of the predict request built by useApi.js:
`{points, Aref: Number(Aref), Anew: Number(Anew)}` and nothing else. -/
structure PredictRequest where
  points : List Point
  Aref : Option ℚ
  Anew : Option ℚ
deriving DecidableEq

/-- Embedding of the predict request construction in useApi.js. -/
def buildPredictRequest (points : List Point) (aRaw bRaw : JsVal) : PredictRequest :=
  ⟨points, toNumber aRaw, toNumber bRaw⟩

/-- The gammaMode values held by DataContext.jsx. -/
inductive GammaMode where
  | fixed
  | blended
deriving DecidableEq

/-- The shared application state of DataContext.jsx, plus the per-tab
local error slots of FileUpload.jsx, FitFosterTab.jsx,
FosterToCauerTab.jsx and PredictSiblingTab.jsx.  Text inputs (orderN,
newArea, gammaFixed) hold JavaScript values, since the onChange handlers
store the raw event value. -/
structure AppState where
  uploadedPoints : Option (List Point)
  fosterResult : Option FitResult
  cauerResult : Option CauerResult
  predictResult : Option PredictResult
  orderN : JsVal
  refArea : JsVal
  newArea : JsVal
  gammaMode : GammaMode
  gammaFixed : JsVal
  uploadError : Option String
  fitError : Option String
  cauerError : Option String
  predictError : Option String
deriving DecidableEq

/-- The predict request produced from the shared state by the call
`predict(uploadedPoints, refArea, newArea)` in PredictSiblingTab.jsx
(line 24), fed through useApi.js. -/
def requestOfState (s : AppState) : PredictRequest :=
  buildPredictRequest (s.uploadedPoints.getD []) s.refArea s.newArea

/-- Embedding of handleFit in FitFosterTab.jsx: a local error (and no
request) when fewer than 3 points are loaded, otherwise the fit call; on
success the result is stored, on failure only the local error is set. -/
def handleFit (s : AppState) : AppState :=
  match s.uploadedPoints with
  | none => { s with fitError := some "Please upload a CSV file with at least 3 data points" }
  | some pts =>
    if pts.length < 3 then
      { s with fitError := some "Please upload a CSV file with at least 3 data points" }
    else
      match fitCore pts (buildFitRequest pts s.orderN).N with
      | .ok r => { s with fosterResult := some r, fitError := none }
      | .error e => { s with fitError := some e }

/-- Embedding of handleConvert in FosterToCauerTab.jsx.  The JavaScript
guard `!fosterResult || !fosterResult.R || !fosterResult.C` blocks only a
missing result (an empty array is truthy), so the model guards on the
option alone. -/
def handleConvert (s : AppState) : AppState :=
  match s.fosterResult with
  | none => { s with cauerError := some "Please fit Foster model first" }
  | some fr =>
    match cauerCore (fr.stages.map FosterStage.R) (fr.stages.map FosterStage.C) fr.fitSeries with
    | .ok r => { s with cauerResult := some r, cauerError := none }
    | .error e => { s with cauerError := some e }

/-- Embedding of handlePredict in PredictSiblingTab.jsx: local errors for
a missing or empty dataset and for `!newArea || parseFloat(newArea) <= 0`
(note parseFloat, while the request itself carries Number(newArea));
otherwise the predict call, storing the result only on success. -/
def handlePredict (s : AppState) : AppState :=
  match s.uploadedPoints with
  | none => { s with predictError := some "Please upload a CSV file first" }
  | some pts =>
    if pts.length = 0 then
      { s with predictError := some "Please upload a CSV file first" }
    else
      if (!truthy s.newArea ||
          match parseFloatJs s.newArea with
          | some q => decide (q ≤ 0)
          | none => false) then
        { s with predictError := some "Please enter a valid New Die Area" }
      else
        match predictCore pts (requestOfState s).Aref (requestOfState s).Anew with
        | .ok r => { s with predictResult := some r, predictError := none }
        | .error e => { s with predictError := some e }

/-- One row of the recharts data prepared by the tabs: a time key plus the
two optional series values. -/
structure ChartRow where
  tp : ℚ
  first : Option ℚ
  second : Option ℚ
deriving DecidableEq

/-- Comparator for chart rows, embedding `.sort((a, b) => a.tp - b.tp)`. -/
def rowLE (a b : ChartRow) : Prop := a.tp ≤ b.tp

instance : DecidableRel rowLE := fun a b => inferInstanceAs (Decidable (a.tp ≤ b.tp))

/-- Embedding of the chart merge of FitFosterTab.jsx (and the identical
one of PredictSiblingTab.jsx): a Map keyed by tp is built from copies of
the uploaded points (`{ ...p, uploadedZth: p.Zth }`), the result series
updates entries in place or appends new ones, and the values are sorted
by time.  Map semantics: a duplicate key replaces the stored value while
keeping its insertion position. -/
def chartMerge (pts series : List Point) : List ChartRow :=
  let base := pts.foldl
    (fun acc p =>
      if acc.any (fun row => row.tp == p.tp) then
        acc.map (fun row => if row.tp == p.tp then ⟨p.tp, some p.Zth, none⟩ else row)
      else acc ++ [⟨p.tp, some p.Zth, none⟩])
    []
  let merged := series.foldl
    (fun acc q =>
      if acc.any (fun row => row.tp == q.tp) then
        acc.map (fun row => if row.tp == q.tp then ⟨row.tp, row.first, some q.Zth⟩ else row)
      else acc ++ [⟨q.tp, none, some q.Zth⟩])
    base
  List.insertionSort rowLE merged

/-- Chart data of FitFosterTab.jsx as a function of the state. -/
def fitChartData (s : AppState) : List ChartRow :=
  match s.uploadedPoints, s.fosterResult with
  | some pts, some fr => chartMerge pts fr.fitSeries
  | some pts, none => pts.map (fun p => ⟨p.tp, some p.Zth, none⟩)
  | none, _ => []

/-- Chart data of PredictSiblingTab.jsx as a function of the state. -/
def predictChartData (s : AppState) : List ChartRow :=
  match s.uploadedPoints, s.predictResult with
  | some pts, some pr => chartMerge pts pr.series
  | some pts, none => pts.map (fun p => ⟨p.tp, some p.Zth, none⟩)
  | none, _ => []

/-- A full fit interaction: the click handler followed by the chart
preparation of the re-render. -/
def fitStep (s : AppState) : AppState × List ChartRow :=
  (handleFit s, fitChartData (handleFit s))

/-- A full predict interaction: the click handler followed by the chart
preparation of the re-render. -/
def predictStep (s : AppState) : AppState × List ChartRow :=
  (handlePredict s, predictChartData (handlePredict s))

/-- Embedding of handleFileChange in FileUpload.jsx: with no file
selected nothing happens; otherwise the three results are cleared before
parsing, then the parsed points are stored on success and the stored
points are cleared on failure. -/
def handleFileChange (s : AppState) (file : Option (List Row)) : AppState :=
  match file with
  | none => s
  | some rows =>
    let s1 := { s with fosterResult := none, cauerResult := none,
                       predictResult := none, uploadError := none }
    match parseRows rows with
    | .ok pts => { s1 with uploadedPoints := some pts }
    | .error e => { s1 with uploadedPoints := none, uploadError := some e }

/-- The fit precondition of the spec as observable on the state: a loaded
dataset of at least 3 points and an order accepted by the validation. -/
def fitPrecondOK (s : AppState) : Prop :=
  s.uploadedPoints ≠ none ∧ 3 ≤ (s.uploadedPoints.getD []).length ∧
    validOrder (toNumber s.orderN) ≠ none

instance (s : AppState) : Decidable (fitPrecondOK s) :=
  inferInstanceAs (Decidable (_ ∧ _ ∧ _))

/-- A Number() result that fails the positivity precondition of predict:
NaN or non-positive. -/
def areaNonPos : Option ℚ → Prop
  | none => True
  | some q => q ≤ 0

instance : DecidablePred areaNonPos := fun v =>
  match v with
  | none => .isTrue trivial
  | some q => inferInstanceAs (Decidable (q ≤ 0))

/-- Boolean test that consecutive times strictly increase. -/
def strictlyIncreasing : List Point → Bool
  | [] => true
  | [_] => true
  | a :: b :: rest => decide (ptLT a b) && strictlyIncreasing (b :: rest)

/-- Dataset validity of the spec data model: at least 3 measurements,
strictly increasing positive times, non-negative impedances. -/
def ValidDataset (pts : List Point) : Prop :=
  3 ≤ pts.length ∧ strictlyIncreasing pts = true ∧ ∀ p ∈ pts, 0 < p.tp ∧ 0 ≤ p.Zth

instance (pts : List Point) : Decidable (ValidDataset pts) :=
  inferInstanceAs (Decidable (_ ∧ _ ∧ _))

/-- A baseline state mirroring the DataContext defaults (orderN 4,
refArea 1.0, newArea empty, gammaMode blended, gammaFixed 0.8), with
nothing loaded. -/
def initialState : AppState :=
  { uploadedPoints := none
    fosterResult := none
    cauerResult := none
    predictResult := none
    orderN := .num 4
    refArea := .num 1
    newArea := .emptyStr
    gammaMode := .blended
    gammaFixed := .num (4 / 5)
    uploadError := none
    fitError := none
    cauerError := none
    predictError := none }

/-- A row carrying tp 1 and Zth 2 in the canonical columns. -/
def dupRow : Row := { tp := .num 1, Zth := .num 2 }

/-- A row carrying tp 1 and impedance exactly 0 in the canonical columns
(a valid Measurement per the spec data model). -/
def zeroZthRow : Row := { tp := .num 1, Zth := .num 0 }

/-- Rows exercising the fallback column names and the sort: the first row
uses tp/Zth with time 2, the second uses t/Z with time 1. -/
def fallbackRows : List Row :=
  [{ tp := .num 2, Zth := .num 5 }, { t := .num 1, Z := .num 3 }]

/-- The concrete scenario dataset of the spec (section 8), with times
rescaled to milliseconds and impedances to hundredths so that every value
is an integer (rational division does not reduce in the kernel). -/
def specScenario : List Point :=
  [⟨1, 10⟩, ⟨10, 30⟩, ⟨100, 60⟩, ⟨1000, 90⟩, ⟨10000, 95⟩]

/-- States identical except for the scaling configuration, used for C3. -/
def predictStateA : AppState :=
  { initialState with uploadedPoints := some [⟨1, 1⟩], newArea := .num 2,
                      gammaMode := .fixed, gammaFixed := .num 1 }

/-- Second scaling configuration for C3. -/
def predictStateB : AppState :=
  { initialState with uploadedPoints := some [⟨1, 1⟩], newArea := .num 2,
                      gammaMode := .blended, gammaFixed := .num 2 }

/-- State with a zero reference area and a loaded dataset, for C6. -/
def zeroAreaState : AppState :=
  { initialState with uploadedPoints := some [⟨1, 1⟩, ⟨2, 2⟩, ⟨3, 3⟩],
                      refArea := .num 0, newArea := .num 2 }

lemma epsClip_pos : (0 : ℚ) < epsClip := by norm_num [epsClip]

lemma clipStage_pos (st : FosterStage) :
    0 < (clipStage st).R ∧ 0 < (clipStage st).C := by
  unfold clipStage
  constructor
  · dsimp only
    split
    · exact epsClip_pos
    · exact lt_of_not_le (by assumption)
  · dsimp only
    split
    · exact epsClip_pos
    · exact lt_of_not_le (by assumption)

lemma toPoint_pos {rp : RawPoint} {p : Point} (h : toPoint rp = some p) :
    0 < p.tp := by
  unfold toPoint at h
  split at h
  · split at h
    · cases h
      assumption
    · cases h
  · cases h

lemma handleFit_uploadedPoints (s : AppState) :
    (handleFit s).uploadedPoints = s.uploadedPoints := by
  unfold handleFit
  split
  · rfl
  · split
    · rfl
    · split <;> rfl

lemma handleConvert_uploadedPoints (s : AppState) :
    (handleConvert s).uploadedPoints = s.uploadedPoints := by
  unfold handleConvert
  split
  · rfl
  · split <;> rfl

lemma handlePredict_uploadedPoints (s : AppState) :
    (handlePredict s).uploadedPoints = s.uploadedPoints := by
  unfold handlePredict
  split
  · rfl
  · split
    · rfl
    · split
      · rfl
      · split <;> rfl

lemma predictCore_pos_area {pts : List Point} {A B : Option ℚ}
    {r : PredictResult} (h : predictCore pts A B = .ok r) :
    ∃ a b, A = some a ∧ B = some b ∧ 0 < a ∧ 0 < b := by
  unfold predictCore at h
  split at h
  next a b =>
    split at h
    · cases h
    next hp =>
      push_neg at hp
      exact ⟨a, b, rfl, rfl, hp.1, hp.2⟩
  next => cases h

/-- C1, counterexample: the parser is not de-duplicating.  Two identical
rows with time 1 both survive parseCsv, so the delivered sequence has a
duplicated time and is not Nodup, refuting the de-duplication part of the
claim. -/
theorem parse_retains_duplicate_times :
    parseRows [dupRow, dupRow] = .ok [⟨1, 2⟩, ⟨1, 2⟩] ∧
      ¬ ([(⟨1, 2⟩ : Point), ⟨1, 2⟩] : List Point).Nodup :=
  ⟨rfl, by decide⟩

/-- C1 (amended): for every uploaded CSV the delivered point sequence is
sorted ascending by time (non-strictly: duplicate times are retained) and
contains no point with non-positive time; values that do not coerce to
numbers are discarded by the filter (every delivered field is a rational
by construction). -/
theorem parse_output_sorted_positive :
    ∀ (rows : List Row) (pts : List Point), parseRows rows = .ok pts →
      List.Sorted ptLE pts ∧ ∀ p ∈ pts, 0 < p.tp := by
  intro rows pts h
  unfold parseRows at h
  split at h
  · cases h
  next raw _ =>
    split at h
    · cases h
    · cases h
      constructor
      · exact List.sorted_insertionSort ptLE _
      · intro p hp
        have hmem : p ∈ raw.filterMap toPoint := (List.mem_insertionSort ptLE).mp hp
        obtain ⟨rp, _, hconv⟩ := List.mem_filterMap.mp hmem
        exact toPoint_pos hconv

theorem parse_output_sorted_positive_witness :
    List.Sorted ptLE [(⟨1, 3⟩ : Point), ⟨2, 5⟩] ∧
      ∀ p ∈ [(⟨1, 3⟩ : Point), ⟨2, 5⟩], 0 < p.tp :=
  parse_output_sorted_positive fallbackRows [⟨1, 3⟩, ⟨2, 5⟩] rfl

/-- C2: a row whose impedance is exactly 0 in the Zth column is rejected by
the parser, which throws the missing-columns error, because the falsy-OR
column lookup `row.Zth || row.Z || row.ZTH || row.z` treats the number 0 as
absent.  The spec data model admits Zth = 0, and the thrown message (the
columns are in fact present) contradicts the code itself, so this is a code
bug, not an intended rejection. -/
theorem parse_rejects_zero_impedance_row :
    parseRows [zeroZthRow] = .error csvColumnsMsg := rfl

/-- C3, counterexample: the predict request never carries the scaling
specification.  Two states that differ in gammaMode and gammaFixed but
agree on points and areas produce the very same request body, so the
configured scaling mode cannot reach the predictor. -/
theorem predict_request_ignores_scaling_config :
    requestOfState predictStateA = requestOfState predictStateB ∧
      predictStateA.gammaMode ≠ predictStateB.gammaMode ∧
      predictStateA.gammaFixed ≠ predictStateB.gammaFixed :=
  ⟨rfl, by decide, by decide⟩

/-- C3 (amended): every predict invocation passes exactly points, Aref and
Anew to the core; the request is a function of those three state fields
alone, and the scaling configuration held in the UI state is not included
in the request. -/
theorem predict_request_determined_without_scaling :
    ∀ s1 s2 : AppState, s1.uploadedPoints = s2.uploadedPoints →
      s1.refArea = s2.refArea → s1.newArea = s2.newArea →
      requestOfState s1 = requestOfState s2 := by
  intro s1 s2 h1 h2 h3
  unfold requestOfState buildPredictRequest
  rw [h1, h2, h3]

theorem predict_request_determined_without_scaling_witness :
    requestOfState predictStateA = requestOfState predictStateB :=
  predict_request_determined_without_scaling predictStateA predictStateB rfl rfl rfl

/-- C4: for every valid dataset and every N between 1 and 10, fit succeeds
and returns exactly N stages, each with R and C strictly positive after the
post-fit clip. -/
theorem fit_returns_N_positive_stages :
    ∀ (pts : List Point) (n : ℕ), ValidDataset pts → 1 ≤ n → n ≤ 10 →
      ∃ r, fitCore pts (some (n : ℚ)) = .ok r ∧ r.stages.length = n ∧
        ∀ st ∈ r.stages, 0 < st.R ∧ 0 < st.C := by
  intro pts n hvd h1 h10
  have hlen : ¬ pts.length < 3 := not_lt.mpr hvd.1
  have hcond : (1 : ℚ) ≤ (n : ℚ) ∧ (n : ℚ) ≤ 10 ∧ ((n : ℚ)).den = 1 :=
    ⟨by exact_mod_cast h1, by exact_mod_cast h10, Rat.den_natCast n⟩
  have hvo : validOrder (some (n : ℚ)) = some n := by
    unfold validOrder
    dsimp only
    rw [if_pos hcond]
    simp
  unfold fitCore
  rw [if_neg hlen, hvo]
  refine ⟨_, rfl, ?_, ?_⟩
  · simp [initialGuess]
  · intro st hst
    obtain ⟨s0, _, heq⟩ := List.mem_map.mp hst
    exact heq ▸ clipStage_pos s0

theorem fit_returns_N_positive_stages_witness :
    ValidDataset specScenario ∧
      (∃ r, fitCore specScenario (some ((2 : ℕ) : ℚ)) = .ok r ∧
        r.stages.length = 2 ∧ ∀ st ∈ r.stages, 0 < st.R ∧ 0 < st.C) :=
  ⟨by decide,
   fit_returns_N_positive_stages specScenario 2 (by decide) (by decide) (by decide)⟩

/-- C5: a fit changes the stored network only under the preconditions
(at least 3 loaded points, valid order); when either is violated the
stored Foster result is untouched and an error is surfaced instead. -/
theorem fit_requires_preconditions :
    ∀ s : AppState, ¬ fitPrecondOK s →
      (handleFit s).fosterResult = s.fosterResult ∧
        (handleFit s).fitError ≠ none := by
  intro s hnot
  unfold handleFit
  cases hup : s.uploadedPoints with
  | none => exact ⟨rfl, by simp⟩
  | some pts =>
    dsimp only
    by_cases hlen : pts.length < 3
    · rw [if_pos hlen]
      exact ⟨rfl, by simp⟩
    · rw [if_neg hlen]
      have hvo : validOrder (toNumber s.orderN) = none := by
        by_contra hne
        refine hnot ⟨by rw [hup]; simp, ?_, hne⟩
        rw [hup]
        simpa using not_lt.mp hlen
      have hfc : fitCore pts (buildFitRequest pts s.orderN).N =
          .error "ValidationError: N out of [1,10]" := by
        unfold fitCore buildFitRequest
        dsimp only
        rw [if_neg hlen, hvo]
      rw [hfc]
      exact ⟨rfl, by simp⟩

theorem fit_requires_preconditions_witness :
    (handleFit initialState).fosterResult = initialState.fosterResult ∧
      (handleFit initialState).fitError ≠ none :=
  fit_requires_preconditions initialState (fun h => h.1 rfl)

/-- C6: when either area fed to predict is non-positive (or NaN), the
stored prediction is untouched and an error is surfaced instead: the
frontend guard blocks a non-positive New Die Area and the core validation
rejects every remaining non-positive or malformed area. -/
theorem predict_requires_positive_areas :
    ∀ s : AppState,
      areaNonPos (toNumber s.refArea) ∨ areaNonPos (toNumber s.newArea) →
        (handlePredict s).predictResult = s.predictResult ∧
          (handlePredict s).predictError ≠ none := by
  intro s hbad
  unfold handlePredict
  cases hup : s.uploadedPoints with
  | none => exact ⟨rfl, by simp⟩
  | some pts =>
    dsimp only
    by_cases hlen : pts.length = 0
    · rw [if_pos hlen]
      exact ⟨rfl, by simp⟩
    · rw [if_neg hlen]
      split
      · exact ⟨rfl, by simp⟩
      · cases hpc : predictCore pts (requestOfState s).Aref (requestOfState s).Anew with
        | ok r =>
          exfalso
          obtain ⟨a, b, ha, hb, hap, hbp⟩ := predictCore_pos_area hpc
          have ha2 : toNumber s.refArea = some a := ha
          have hb2 : toNumber s.newArea = some b := hb
          cases hbad with
          | inl h =>
            rw [ha2] at h
            exact absurd hap (not_lt.mpr h)
          | inr h =>
            rw [hb2] at h
            exact absurd hbp (not_lt.mpr h)
        | error e =>
          exact ⟨rfl, by simp⟩

theorem predict_requires_positive_areas_witness :
    (handlePredict zeroAreaState).predictResult = zeroAreaState.predictResult ∧
      (handlePredict zeroAreaState).predictError ≠ none :=
  predict_requires_positive_areas zeroAreaState (Or.inl (by decide))

/-- C7: whenever an operation ends with its error slot set (a failed fit,
conversion or prediction), the corresponding stored result is exactly what
it was before the call: the failing paths never write the result. -/
theorem failed_operation_preserves_results :
    ∀ s : AppState,
      ((handleFit s).fitError ≠ none →
        (handleFit s).fosterResult = s.fosterResult) ∧
      ((handleConvert s).cauerError ≠ none →
        (handleConvert s).cauerResult = s.cauerResult) ∧
      ((handlePredict s).predictError ≠ none →
        (handlePredict s).predictResult = s.predictResult) := by
  intro s
  refine ⟨?_, ?_, ?_⟩
  · unfold handleFit
    split
    · intro _; rfl
    · split
      · intro _; rfl
      · split
        · intro h; exact absurd rfl h
        · intro _; rfl
  · unfold handleConvert
    split
    · intro _; rfl
    · split
      · intro h; exact absurd rfl h
      · intro _; rfl
  · unfold handlePredict
    split
    · intro _; rfl
    · split
      · intro _; rfl
      · split
        · intro _; rfl
        · split
          · intro h; exact absurd rfl h
          · intro _; rfl

theorem failed_operation_preserves_results_witness :
    (handleConvert initialState).cauerResult = initialState.cauerResult :=
  (failed_operation_preserves_results initialState).2.1 (by decide)

/-- C8: no operation mutates the uploaded dataset.  A full fit or predict
interaction (click handler followed by the chart merge of the re-render)
and a conversion all leave the stored uploaded points, values and order
included, exactly as they were; the chart merge operates on fresh rows
copied from the points. -/
theorem operations_preserve_uploaded_points :
    ∀ s : AppState,
      (fitStep s).1.uploadedPoints = s.uploadedPoints ∧
      (handleConvert s).uploadedPoints = s.uploadedPoints ∧
      (predictStep s).1.uploadedPoints = s.uploadedPoints :=
  fun s =>
    ⟨handleFit_uploadedPoints s, handleConvert_uploadedPoints s,
     handlePredict_uploadedPoints s⟩

/-- C9: every operation is deterministic: identical row lists parse to
identical point lists, and identical (points, N) and
(points, Aref, Anew) inputs produce identical request payloads.  All
inputs of the embedded operations are explicit; no ambient state enters
them. -/
theorem operations_deterministic :
    (∀ r1 r2 : List Row, r1 = r2 → parseRows r1 = parseRows r2) ∧
      (∀ (p1 p2 : List Point) (n1 n2 : JsVal), p1 = p2 → n1 = n2 →
        buildFitRequest p1 n1 = buildFitRequest p2 n2) ∧
      (∀ (p1 p2 : List Point) (a1 a2 b1 b2 : JsVal),
        p1 = p2 → a1 = a2 → b1 = b2 →
        buildPredictRequest p1 a1 b1 = buildPredictRequest p2 a2 b2) := by
  refine ⟨?_, ?_, ?_⟩
  · intro r1 r2 h
    rw [h]
  · intro p1 p2 n1 n2 h1 h2
    rw [h1, h2]
  · intro p1 p2 a1 a2 b1 b2 h1 h2 h3
    rw [h1, h2, h3]

theorem operations_deterministic_witness :
    parseRows fallbackRows = parseRows fallbackRows ∧
      buildFitRequest [] .undef = buildFitRequest [] .undef :=
  ⟨operations_deterministic.1 fallbackRows fallbackRows rfl,
   operations_deterministic.2.1 [] [] .undef .undef rfl rfl⟩

/-- C10: selecting a new CSV file clears the three computed results before
parsing, and the stored points become the freshly parsed ones on success
and are cleared on failure, so a stored result never refers to a dataset
other than the currently loaded one. -/
theorem file_change_clears_results :
    ∀ (s : AppState) (rows : List Row),
      (handleFileChange s (some rows)).fosterResult = none ∧
      (handleFileChange s (some rows)).cauerResult = none ∧
      (handleFileChange s (some rows)).predictResult = none ∧
      (∀ e, parseRows rows = .error e →
        (handleFileChange s (some rows)).uploadedPoints = none) ∧
      (∀ pts, parseRows rows = .ok pts →
        (handleFileChange s (some rows)).uploadedPoints = some pts) := by
  intro s rows
  unfold handleFileChange
  dsimp only
  cases hp : parseRows rows with
  | ok pts =>
    refine ⟨rfl, rfl, rfl, ?_, ?_⟩
    · intro e he
      cases he
    · intro pts2 he
      cases he
      rfl
  | error e =>
    refine ⟨rfl, rfl, rfl, ?_, ?_⟩
    · intro e2 _
      rfl
    · intro pts he
      cases he

theorem file_change_clears_results_witness :
    (handleFileChange initialState (some [])).uploadedPoints = none ∧
      (handleFileChange initialState (some [])).fosterResult = none :=
  ⟨(file_change_clears_results initialState []).2.2.2.1 noValidPointsMsg rfl,
   (file_change_clears_results initialState []).1⟩
